import Mathlib

/-!
Shallow embedding of the ElectionStore command layer of tibidata/databases_project
(webapp/tools/db_client.py and webapp/tools/query.py).

The relational state (Users, Elections, Candidates, Votes tables) is modelled as
lists of rows plus auto-increment counters.  Each public operation of the
`DBClient` dispatcher is translated into a pure state-passing function whose
branches mirror the Python control flow and whose SQL statements are given
their relational semantics over the list-based tables.
-/

namespace ElectionStore

/-- Row of the Users table: Users(username, email, password, last_login). -/
structure UserR where
  username : String
  email : String
  password : String
  last_login : Option String
deriving DecidableEq

/-- Row of the Elections table: Elections(id, name, description, start_time, end_time, creator_username). -/
structure ElectionR where
  id : Nat
  name : String
  descr : String
  start_time : String
  end_time : String
  creator_username : String
deriving DecidableEq

/-- Row of the Candidates table: Candidates(id, name, birth_date, occupation, program, election_id). -/
structure CandidateR where
  id : Nat
  name : String
  birth_date : String
  occupation : String
  program : String
  election_id : Nat
deriving DecidableEq

/-- Row of the Votes table: Votes(id, username, election_id, candidate_id, vote_time). -/
structure VoteR where
  id : Nat
  username : String
  election_id : Nat
  candidate_id : Nat
  vote_time : String
deriving DecidableEq

/-- The database state: the four tables plus the auto-increment counters used
for generated ids (MySQL `lastrowid`). -/
structure DB where
  users : List UserR
  elections : List ElectionR
  candidates : List CandidateR
  votes : List VoteR
  nextElectionId : Nat
  nextCandidateId : Nat
  nextVoteId : Nat
deriving DecidableEq

/-- A freshly bootstrapped database: all tables empty, counters at 1. -/
def emptyDB : DB := ⟨[], [], [], [], 1, 1, 1⟩

/-! Date handling: `Query.__format_date` calls
`datetime.datetime.strptime(date_str, "%Y-%m-%d")` and re-renders the result as
`"%Y-%m-%d %H:%M:%S"` (midnight appended).  `strptime` accepts exactly four
digits for the year, one or two digits for month and day, requires the whole
string to be consumed, and validates the calendar date (month 1..12, day within
the month, respecting leap years).  On failure a `ValueError` is raised, which
we model as `none`. -/

/-- Split a character list into the groups separated by the dash character. -/
def splitDash : List Char → List (List Char)
  | [] => [[]]
  | c :: rest =>
    if c = '-' then [] :: splitDash rest
    else
      match splitDash rest with
      | [] => [[c]]
      | g :: gs => (c :: g) :: gs

/-- Numeric value of a list of decimal digit characters. -/
def digitsVal (cs : List Char) : Nat :=
  cs.foldl (fun a c => a * 10 + (c.toNat - 48)) 0

/-- All characters are decimal digits. -/
def allDigits (cs : List Char) : Bool := cs.all Char.isDigit

/-- Gregorian leap-year test, as used by Python `datetime`. -/
def isLeap (y : Nat) : Bool :=
  (y % 4 == 0 && y % 100 != 0) || y % 400 == 0

/-- Number of days in a month of a given year. -/
def daysInMonth (y m : Nat) : Nat :=
  if m == 2 then (if isLeap y then 29 else 28)
  else if m == 4 || m == 6 || m == 9 || m == 11 then 30
  else 31

/-- Render a number as two digits, zero padded. -/
def pad2 (n : Nat) : String := if n < 10 then "0" ++ toString n else toString n

/-- Render a number as four digits, zero padded. -/
def pad4 (n : Nat) : String :=
  if n < 10 then "000" ++ toString n
  else if n < 100 then "00" ++ toString n
  else if n < 1000 then "0" ++ toString n
  else toString n

/-- Model of `Query.__format_date`: parse `YYYY-MM-DD` and append a midnight
time component; `none` models the raised `ValueError`. -/
def formatDate (ds : String) : Option String :=
  match splitDash ds.data with
  | [ys, ms, dcs] =>
    if allDigits ys ∧ allDigits ms ∧ allDigits dcs
        ∧ ys.length = 4 ∧ 1 ≤ ms.length ∧ ms.length ≤ 2
        ∧ 1 ≤ dcs.length ∧ dcs.length ≤ 2 then
      let y := digitsVal ys
      let m := digitsVal ms
      let d := digitsVal dcs
      if 1 ≤ y ∧ 1 ≤ m ∧ m ≤ 12 ∧ 1 ≤ d ∧ d ≤ daysInMonth y m then
        some (pad4 y ++ "-" ++ pad2 m ++ "-" ++ pad2 d ++ " 00:00:00")
      else none
    else none
  | _ => none

/-- The `ValueError` message raised by `Query.__format_date`. -/
def dateErrMsg (ds : String) : String :=
  "Incorrect date format for: " ++ ds ++ ". Expected format: YYYY-MM-DD"

/-! The operations of `DBClient`.  Each `__query` call executes the SQL built
by the `Query` class; the SQL is given its relational meaning over `DB`. -/

/-- Model of `DBClient.__validate_login`: `SELECT password FROM Users WHERE
username = ...`, then compare the first returned password with the supplied
one; an empty result yields false. -/
def loginOp (s : DB) (username password : String) : Bool :=
  match s.users.filter (fun r => r.username == username) with
  | [] => false
  | r :: _ => r.password == password

/-- Model of the `check_user` query: `SELECT * FROM Users WHERE username = ...
OR email = ...` is nonempty. -/
def userMatches (s : DB) (username email : String) : Bool :=
  s.users.any (fun r => r.username == username || r.email == email)

/-- Model of `DBClient.__register`: if `check_user` finds no row, insert the
new user (with NULL last_login) and return true, else return false. -/
def registerOp (s : DB) (username email password : String) : Bool × DB :=
  if userMatches s username email then (false, s)
  else (true, { s with users := s.users ++ [⟨username, email, password, none⟩] })

/-- Model of the `check_vote` query: EXISTS a vote row of this user joined to
an election with the given name. -/
def hasVoted (s : DB) (username electionName : String) : Bool :=
  s.votes.any fun v =>
    v.username == username &&
      s.elections.any fun e => e.id == v.election_id && e.name == electionName

/-- The (election id, candidate id) pairs produced by the SELECT part of the
`vote` INSERT: elections with the given name joined to their candidates with
the given candidate name. -/
def matchingPairs (s : DB) (electionName candidateName : String) : List (Nat × Nat) :=
  (s.elections.filter (fun e => e.name == electionName)).flatMap fun e =>
    (s.candidates.filter fun c => c.election_id == e.id && c.name == candidateName).map
      fun c => (e.id, c.id)

/-- Vote rows inserted by the `vote` INSERT ... SELECT, with generated ids
starting at the given counter. -/
def voteRows (username voteTime : String) : Nat → List (Nat × Nat) → List VoteR
  | _, [] => []
  | i, (eid, cid) :: rest =>
    ⟨i, username, eid, cid, voteTime⟩ :: voteRows username voteTime (i + 1) rest

/-- Model of `DBClient.__vote`: if `check_vote` reports the user has voted in
this election, return false; otherwise execute the conditional INSERT (which
inserts one row per matching (election, candidate) pair, possibly zero) and
return true.  `voteTime` stands for CURRENT_TIMESTAMP. -/
def voteOp (s : DB) (username electionName candidateName voteTime : String) : Bool × DB :=
  if hasVoted s username electionName then (false, s)
  else
    let pairs := matchingPairs s electionName candidateName
    (true,
      { s with
        votes := s.votes ++ voteRows username voteTime s.nextVoteId pairs,
        nextVoteId := s.nextVoteId + pairs.length })

/-- Model of the `check_election` query: EXISTS an election with this name. -/
def electionExists (s : DB) (electionName : String) : Bool :=
  s.elections.any fun e => e.name == electionName

/-- A candidate as supplied to `create_election`: {name, birth_date,
occupation, program}. -/
structure CandIn where
  name : String
  birth_date : String
  occupation : String
  program : String
deriving DecidableEq

/-- Model of the date formatting performed while `Query.__insert_candidates`
builds its statement: every birth date is formatted, and the first malformed
one raises, aborting the whole INSERT before execution. -/
def formatBirths : List CandIn → Except String (List (CandIn × String))
  | [] => .ok []
  | c :: rest =>
    match formatDate c.birth_date with
    | none => .error (dateErrMsg c.birth_date)
    | some f =>
      match formatBirths rest with
      | .error m => .error m
      | .ok l => .ok ((c, f) :: l)

/-- Candidate rows inserted by the `insert_candidates` INSERT, tied to the
generated election id, with generated candidate ids from the counter. -/
def mkCandRows (electionId : Nat) : Nat → List (CandIn × String) → List CandidateR
  | _, [] => []
  | i, (c, f) :: rest =>
    ⟨i, c.name, f, c.occupation, c.program, electionId⟩ :: mkCandRows electionId (i + 1) rest

/-- Outcome of `create_election`: either a boolean result or a raised
`ValueError` (malformed date), which the caller sees as an exception. -/
inductive CEOutcome where
  | ok (b : Bool)
  | err (msg : String)
deriving DecidableEq

/-- Model of `DBClient.__create_election`: `check_election` first (returning
false with no further work if the name exists); then the `create_election`
INSERT is built, formatting start and end dates (a malformed one raises before
any insert); then the election row is inserted and its generated id used for
the candidate batch, whose birth dates are formatted while the batch statement
is built (a malformed one raises after the election row is already in).  An
empty candidate list yields a malformed INSERT whose backend error is
swallowed, so no candidate row is inserted and true is still returned. -/
def createElectionOp (s : DB)
    (electionName electionDescription startDate endDate creatorUsername : String)
    (cands : List CandIn) : CEOutcome × DB :=
  if electionExists s electionName then (.ok false, s)
  else
    match formatDate startDate with
    | none => (.err (dateErrMsg startDate), s)
    | some sdF =>
      match formatDate endDate with
      | none => (.err (dateErrMsg endDate), s)
      | some edF =>
        let eid := s.nextElectionId
        let s1 : DB :=
          { s with
            elections := s.elections ++
              [⟨eid, electionName, electionDescription, sdF, edF, creatorUsername⟩],
            nextElectionId := eid + 1 }
        match formatBirths cands with
        | .error m => (.err m, s1)
        | .ok withDates =>
          (.ok true,
            { s1 with
              candidates := s1.candidates ++ mkCandRows eid s1.nextCandidateId withDates,
              nextCandidateId := s1.nextCandidateId + withDates.length })

/-! The read-only listing queries. -/

/-- A row of the `view_results` result set. -/
structure ResultRow where
  election_name : String
  candidate_name : String
  vote_count : Nat
deriving DecidableEq

/-- The ORDER BY key of `view_results`: vote_count descending, candidate_name
ascending as the tie-break. -/
def rowLe (r1 r2 : ResultRow) : Prop :=
  r2.vote_count < r1.vote_count ∨
    (r1.vote_count = r2.vote_count ∧ r1.candidate_name ≤ r2.candidate_name)

instance : DecidableRel rowLe := fun r1 r2 => by
  unfold rowLe; infer_instance

/-- The FROM/JOIN/WHERE part of `view_results`: candidates of elections whose
name matches. -/
def electionJoinCandidates (s : DB) (electionName : String) : List CandidateR :=
  (s.elections.filter (fun e => e.name == electionName)).flatMap fun e =>
    s.candidates.filter fun c => c.election_id == e.id

/-- Number of vote rows referencing a candidate id. -/
def votesForCandidate (s : DB) (cid : Nat) : Nat :=
  (s.votes.filter fun v => v.candidate_id == cid).length

/-- COUNT(v.id) of one GROUP BY group: the LEFT JOIN contributes the votes of
every joined candidate carrying this name, and NULLs (zero-vote candidates)
are not counted. -/
def groupCount (s : DB) (cands : List CandidateR) (nm : String) : Nat :=
  ((cands.filter fun c => c.name == nm).map fun c => votesForCandidate s c.id).sum

/-- Model of the `view_results` SELECT: one row per GROUP BY key (election
name is pinned by the WHERE clause, so the key is the candidate name), with
the grouped vote count, ordered by the ORDER BY clause. -/
def viewResultsRows (s : DB) (electionName : String) : List ResultRow :=
  let cands := electionJoinCandidates s electionName
  let names := (cands.map fun c => c.name).dedup
  List.insertionSort rowLe
    (names.map fun nm => ⟨electionName, nm, groupCount s cands nm⟩)

/-- Model of the result shaping in `DBClient.__view_elections`:
`return results if results else None`. -/
def emptyToNone {α : Type} (rows : List α) : Option (List α) :=
  if rows.isEmpty then none else some rows

/-- The `view_results` operation as dispatched through
`DBClient.__view_elections`. -/
def viewResultsOp (s : DB) (electionName : String) : Option (List ResultRow) :=
  emptyToNone (viewResultsRows s electionName)

/-- A row of the `list_election_candidates` result set. -/
structure CandRow where
  id : Nat
  name : String
  birth_date : String
  occupation : String
  program : String
deriving DecidableEq

/-- Model of the `list_election_candidates` SELECT: candidates joined to the
election with the given name. -/
def listElectionCandidatesRows (s : DB) (electionName : String) : List CandRow :=
  s.candidates.flatMap fun c =>
    (s.elections.filter fun e => c.election_id == e.id && e.name == electionName).map
      fun _ => ⟨c.id, c.name, c.birth_date, c.occupation, c.program⟩

/-- The `list_election_candidates` operation as dispatched through
`DBClient.__view_elections`. -/
def listElectionCandidatesOp (s : DB) (electionName : String) : Option (List CandRow) :=
  emptyToNone (listElectionCandidatesRows s electionName)

/-- Model of the `list_elections` SELECT. -/
def listElectionsRows (s : DB) : List ElectionR := s.elections

/-- Model of the `list_live_elections` SELECT: elections whose stored time
window contains the current timestamp (string comparison of the canonical
datetime rendering). -/
def listLiveElectionsRows (s : DB) (now : String) : List ElectionR :=
  s.elections.filter fun e => decide (e.start_time ≤ now) && decide (now ≤ e.end_time)

/-- The operations reachable through the `DBClient.__call__` dispatcher
(`query_type_map`), each carrying its parameters. -/
inductive Op where
  | login (username password : String)
  | register (username email password : String)
  | viewResults (electionName : String)
  | listElections
  | listLiveElections (now : String)
  | listElectionCandidates (electionName : String)
  | vote (username electionName candidateName voteTime : String)
  | createElection
      (electionName electionDescription startDate endDate creatorUsername : String)
      (cands : List CandIn)

/-- State transition of each dispatched operation (the listing operations and
login issue only SELECTs and leave the state unchanged). -/
def applyOp (s : DB) : Op → DB
  | .login _ _ => s
  | .register u e p => (registerOp s u e p).2
  | .viewResults _ => s
  | .listElections => s
  | .listLiveElections _ => s
  | .listElectionCandidates _ => s
  | .vote u en cn t => (voteOp s u en cn t).2
  | .createElection en d sd ed cu cs => (createElectionOp s en d sd ed cu cs).2

/-! Concrete states used by witnesses and counterexamples. -/

/-- A database holding one election named E with one candidate named A and no
votes. -/
def sampleDB : DB :=
  { users := []
    elections := [⟨1, "E", "d", "2024-01-05 00:00:00", "2024-02-05 00:00:00", "bob"⟩]
    candidates := [⟨1, "A", "1990-01-02 00:00:00", "o", "p", 1⟩]
    votes := []
    nextElectionId := 2
    nextCandidateId := 2
    nextVoteId := 1 }

/-- A database holding one election named E with no candidates. -/
def noCandDB : DB :=
  { emptyDB with
    elections := [⟨1, "E", "d", "2024-01-05 00:00:00", "2024-02-05 00:00:00", "bob"⟩]
    nextElectionId := 2 }

/-- The state produced by creating election E with two candidates that share
the name A. -/
def dupDB : DB :=
  (createElectionOp emptyDB "E" "d" "2024-01-05" "2024-02-05" "bob"
    [⟨"A", "1990-01-02", "o", "p"⟩, ⟨"A", "1991-03-04", "o2", "p2"⟩]).2

/-- The state produced by creating election E with a single candidate A. -/
def rtDB : DB :=
  (createElectionOp emptyDB "E" "d" "2024-01-05" "2024-02-05" "bob"
    [⟨"A", "1990-01-02", "o", "p"⟩]).2

example : formatDate "2024-01-05" = some "2024-01-05 00:00:00" := by decide
example : formatDate "2024-13-01" = none := by decide
example : formatDate "2024-02-30" = none := by decide
example : formatDate "2024-02-29" = some "2024-02-29 00:00:00" := by decide
example : formatDate "2023-02-29" = none := by decide
example : formatDate "2024-1-5" = some "2024-01-05 00:00:00" := by decide
example : formatDate "24-01-05" = none := by decide
example : formatDate "2024-01-05 " = none := by decide
example : (voteOp sampleDB "u" "E" "bogus" "t0").1 = true := by decide
example : (voteOp sampleDB "u" "E" "bogus" "t0").2 = sampleDB := by decide
example : (viewResultsRows dupDB "E").length = 1 := by decide
example : (electionJoinCandidates dupDB "E").length = 2 := by decide
example : listElectionCandidatesRows rtDB "E"
    = [⟨1, "A", "1990-01-02 00:00:00", "o", "p"⟩] := by decide
example : viewResultsOp emptyDB "Y" = none := by decide

/-! Claim theorems. -/

/-- C3: `register` returns true and inserts exactly one new user row when no
existing user row matches the given username or the given email, and returns
false without inserting when such a row exists; calling `register` twice with
the same username returns true on the first call and false on the second,
with no second user row created. -/
theorem register_duplicate_guard (s : DB) (u e p e2 p2 : String) :
    (userMatches s u e = true → registerOp s u e p = (false, s)) ∧
    (userMatches s u e = false →
      registerOp s u e p = (true, { s with users := s.users ++ [⟨u, e, p, none⟩] }) ∧
      registerOp { s with users := s.users ++ [⟨u, e, p, none⟩] } u e2 p2
        = (false, { s with users := s.users ++ [⟨u, e, p, none⟩] })) := by
  refine ⟨fun h => ?_, fun h => ⟨?_, ?_⟩⟩
  · simp [registerOp, h]
  · simp [registerOp, h]
  · simp [registerOp, userMatches, List.any_append]

/-- C3 witness: registering a fresh user succeeds once and fails on repeat. -/
theorem register_duplicate_guard_witness :
    userMatches emptyDB "alice" "a@x" = false ∧
    (registerOp emptyDB "alice" "a@x" "pw").1 = true ∧
    (registerOp (registerOp emptyDB "alice" "a@x" "pw").2 "alice" "b@y" "pw2").1 = false := by
  have h := (register_duplicate_guard emptyDB "alice" "a@x" "pw" "b@y" "pw2").2 (by decide)
  exact ⟨by decide, by rw [h.1], by rw [h.1, h.2]⟩

/-- C10: when an election with the given name already exists, `create_election`
returns false with the state unchanged, regardless of the supplied dates, which
are never parsed. -/
theorem create_election_existing_short_circuits (s : DB)
    (en d sd ed cu : String) (cands : List CandIn)
    (h : electionExists s en = true) :
    createElectionOp s en d sd ed cu cands = (.ok false, s) := by
  simp [createElectionOp, h]

/-- C10 witness: with election E present, malformed dates still yield a plain
false and no state change. -/
theorem create_election_existing_short_circuits_witness :
    electionExists sampleDB "E" = true ∧
    formatDate "2024-13-01" = none ∧
    createElectionOp sampleDB "E" "d" "2024-13-01" "2024-99-99" "u" [] = (.ok false, sampleDB) :=
  ⟨by decide, by decide,
    create_election_existing_short_circuits sampleDB "E" "d" "2024-13-01" "2024-99-99" "u" []
      (by decide)⟩

/-- C9: if the user has not voted in the named election and the candidate (or
election) name matches nothing, `vote` returns true while inserting nothing,
and a subsequent `vote` call for the same (username, election_name) pair can
again return true. -/
theorem vote_no_insert_invalid_candidate (s : DB) (u en cn t : String)
    (h1 : hasVoted s u en = false) (h2 : matchingPairs s en cn = []) :
    voteOp s u en cn t = (true, s) ∧
    ∀ cn2 t2, (voteOp (voteOp s u en cn t).2 u en cn2 t2).1 = true := by
  have h0 : voteOp s u en cn t = (true, s) := by
    simp [voteOp, h1, h2, voteRows]
  refine ⟨h0, fun cn2 t2 => ?_⟩
  rw [h0]
  simp [voteOp, h1]

/-- C9 witness: voting for a nonexistent candidate leaves the state unchanged
and a retry with the real candidate still returns true. -/
theorem vote_no_insert_invalid_candidate_witness :
    hasVoted sampleDB "u" "E" = false ∧
    matchingPairs sampleDB "E" "bogus" = [] ∧
    voteOp sampleDB "u" "E" "bogus" "t0" = (true, sampleDB) ∧
    (voteOp (voteOp sampleDB "u" "E" "bogus" "t0").2 "u" "E" "A" "t1").1 = true := by
  have h := vote_no_insert_invalid_candidate sampleDB "u" "E" "bogus" "t0" (by decide) (by decide)
  exact ⟨by decide, by decide, h.1, h.2 "A" "t1"⟩

/-- C8: every operation reachable through the dispatcher only appends to the
Votes table: the vote rows after any operation extend the vote rows before it,
so no existing vote row is ever updated or deleted. -/
theorem votes_monotone (s : DB) (op : Op) :
    ∃ t, (applyOp s op).votes = s.votes ++ t := by
  cases op with
  | login u p => exact ⟨[], by simp [applyOp]⟩
  | register u e p =>
    refine ⟨[], ?_⟩
    simp only [applyOp, registerOp]
    split <;> simp
  | viewResults en => exact ⟨[], by simp [applyOp]⟩
  | listElections => exact ⟨[], by simp [applyOp]⟩
  | listLiveElections now => exact ⟨[], by simp [applyOp]⟩
  | listElectionCandidates en => exact ⟨[], by simp [applyOp]⟩
  | vote u en cn t =>
    simp only [applyOp, voteOp]
    split
    · exact ⟨[], by simp⟩
    · exact ⟨voteRows u t s.nextVoteId (matchingPairs s en cn), rfl⟩
  | createElection en d sd ed cu cs =>
    refine ⟨[], ?_⟩
    simp only [applyOp, createElectionOp]
    split
    · simp
    · split
      · simp
      · split
        · simp
        · split <;> simp

/-- Reduction of `createElectionOp` on the success path. -/
theorem createElectionOp_ok (s : DB) (en d sd ed cu : String) (cands : List CandIn)
    (sdF edF : String) (withDates : List (CandIn × String))
    (h : electionExists s en = false)
    (h1 : formatDate sd = some sdF) (h2 : formatDate ed = some edF)
    (h3 : formatBirths cands = .ok withDates) :
    createElectionOp s en d sd ed cu cands =
      (.ok true,
        { s with
          elections := s.elections ++ [(⟨s.nextElectionId, en, d, sdF, edF, cu⟩ : ElectionR)],
          candidates := s.candidates ++
            mkCandRows s.nextElectionId s.nextCandidateId withDates,
          nextElectionId := s.nextElectionId + 1,
          nextCandidateId := s.nextCandidateId + withDates.length }) := by
  simp [createElectionOp, h, h1, h2, h3]

/-- C4: `create_election` on a fresh name with well-formed dates returns true
after inserting the election row and all supplied candidate rows tied to the
generated election id; on an existing name it returns false and inserts
nothing. -/
theorem create_election_spec (s : DB) (en d sd ed cu : String) (cands : List CandIn)
    (sdF edF : String) (withDates : List (CandIn × String)) :
    (electionExists s en = true →
      createElectionOp s en d sd ed cu cands = (.ok false, s)) ∧
    (electionExists s en = false →
      formatDate sd = some sdF → formatDate ed = some edF →
      formatBirths cands = .ok withDates →
      createElectionOp s en d sd ed cu cands =
        (.ok true,
          { s with
            elections := s.elections ++ [(⟨s.nextElectionId, en, d, sdF, edF, cu⟩ : ElectionR)],
            candidates := s.candidates ++
              mkCandRows s.nextElectionId s.nextCandidateId withDates,
            nextElectionId := s.nextElectionId + 1,
            nextCandidateId := s.nextCandidateId + withDates.length })) := by
  constructor
  · intro h
    simp [createElectionOp, h]
  · intro h h1 h2 h3
    exact createElectionOp_ok s en d sd ed cu cands sdF edF withDates h h1 h2 h3

/-- C4 witness: creating election E from the empty database inserts the
election row and the candidate row, and repeating the creation fails. -/
theorem create_election_spec_witness :
    electionExists emptyDB "E" = false ∧
    formatDate "2024-01-05" = some "2024-01-05 00:00:00" ∧
    createElectionOp emptyDB "E" "d" "2024-01-05" "2024-02-05" "bob"
        [⟨"A", "1990-01-02", "o", "p"⟩]
      = (.ok true,
          { emptyDB with
            elections := [⟨1, "E", "d", "2024-01-05 00:00:00", "2024-02-05 00:00:00", "bob"⟩],
            candidates := [⟨1, "A", "1990-01-02 00:00:00", "o", "p", 1⟩],
            nextElectionId := 2,
            nextCandidateId := 2 }) := by
  have h := (create_election_spec emptyDB "E" "d" "2024-01-05" "2024-02-05" "bob"
      [⟨"A", "1990-01-02", "o", "p"⟩] "2024-01-05 00:00:00" "2024-02-05 00:00:00"
      [(⟨"A", "1990-01-02", "o", "p"⟩, "1990-01-02 00:00:00")]).2
      (by decide) (by decide) (by decide) (by rfl)
  refine ⟨by decide, by decide, ?_⟩
  rw [h]; rfl

/-- C5 counterexample: when an election with the name already exists,
`create_election` with a malformed start date returns a plain false rather
than failing with a validation error, so the claim does not hold for every
call. -/
theorem create_election_bad_date_counterexample :
    formatDate "2024-13-01" = none ∧
    (createElectionOp sampleDB "E" "d" "2024-13-01" "2024-12-31" "u" []).1 = .ok false := by
  exact ⟨by decide, by decide⟩

/-- C5 amended: when no election with the given name exists, a start or end
date that does not parse as YYYY-MM-DD makes `create_election` fail with a
`ValueError` (distinguishable from false) and leaves the state unchanged. -/
theorem create_election_bad_date_error_when_new (s : DB)
    (en d sd ed cu : String) (cands : List CandIn)
    (h : electionExists s en = false)
    (hbad : formatDate sd = none ∨ formatDate ed = none) :
    ∃ msg, createElectionOp s en d sd ed cu cands = (.err msg, s) := by
  rcases hbad with hb | hb
  · exact ⟨dateErrMsg sd, by simp [createElectionOp, h, hb]⟩
  · cases hsd : formatDate sd with
    | none => exact ⟨dateErrMsg sd, by simp [createElectionOp, h, hsd]⟩
    | some v => exact ⟨dateErrMsg ed, by simp [createElectionOp, h, hsd, hb]⟩

/-- C5 amended witness: creating a fresh election with start date 2024-13-01
raises the date validation error and changes nothing. -/
theorem create_election_bad_date_error_when_new_witness :
    electionExists emptyDB "E" = false ∧
    formatDate "2024-13-01" = none ∧
    ∃ msg, createElectionOp emptyDB "E" "d" "2024-13-01" "2024-01-01" "u" []
      = (.err msg, emptyDB) :=
  ⟨by decide, by decide,
    create_election_bad_date_error_when_new emptyDB "E" "d" "2024-13-01" "2024-01-01" "u" []
      (by decide) (Or.inl (by decide))⟩

/-- A pair produced by the vote INSERT ... SELECT comes from an election with
the requested name. -/
theorem mem_matchingPairs (s : DB) (en cn : String) (eid cid : Nat)
    (h : (eid, cid) ∈ matchingPairs s en cn) :
    ∃ e ∈ s.elections, e.name = en ∧ e.id = eid := by
  unfold matchingPairs at h
  simp only [List.mem_flatMap, List.mem_map, List.mem_filter] at h
  obtain ⟨e, ⟨he, hname⟩, c, _, heq⟩ := h
  refine ⟨e, he, by simpa using hname, ?_⟩
  have := congrArg Prod.fst heq
  simpa using this

/-- C1 counterexample: with election E and candidate A present and user u not
yet voted, a `vote` call naming the invalid candidate bogus returns true (so a
call that is not the first call with a valid candidate returns true), and the
following call with the valid candidate A returns true as well, so two calls
for the same (username, election_name) pair return true. -/
theorem vote_single_guard_counterexample :
    matchingPairs sampleDB "E" "bogus" = [] ∧
    (voteOp sampleDB "u" "E" "bogus" "t0").1 = true ∧
    (voteOp (voteOp sampleDB "u" "E" "bogus" "t0").2 "u" "E" "A" "t1").1 = true := by
  decide

/-- C1 amended: if the user has not yet voted in the election, the first
`vote` call naming a valid candidate returns true and inserts at least one
vote row, and every subsequent `vote` call for the same
(username, election_name) pair returns false and inserts nothing, regardless
of which candidate is supplied.  Calls with invalid candidates made before any
valid one also return true, inserting nothing (see the C9 theorem). -/
theorem vote_single_vote_guard (s : DB) (u en cn t : String)
    (h1 : hasVoted s u en = false) (h2 : matchingPairs s en cn ≠ []) :
    (voteOp s u en cn t).1 = true ∧
    (voteOp s u en cn t).2.votes
      = s.votes ++ voteRows u t s.nextVoteId (matchingPairs s en cn) ∧
    voteRows u t s.nextVoteId (matchingPairs s en cn) ≠ [] ∧
    ∀ cn2 t2, voteOp (voteOp s u en cn t).2 u en cn2 t2 = (false, (voteOp s u en cn t).2) := by
  have hstate : (voteOp s u en cn t).2
      = { s with
          votes := s.votes ++ voteRows u t s.nextVoteId (matchingPairs s en cn),
          nextVoteId := s.nextVoteId + (matchingPairs s en cn).length } := by
    simp [voteOp, h1]
  refine ⟨by simp [voteOp, h1], by rw [hstate], ?_, ?_⟩
  · cases hp : matchingPairs s en cn with
    | nil => exact absurd hp h2
    | cons p rest => cases p; simp [voteRows]
  · intro cn2 t2
    set s2 := (voteOp s u en cn t).2 with hs2
    have hv : hasVoted s2 u en = true := by
      rw [hstate]
      simp only [hasVoted, List.any_append, List.any_eq_true, Bool.or_eq_true]
      refine Or.inr ?_
      cases hp : matchingPairs s en cn with
      | nil => exact absurd hp h2
      | cons p rest =>
        rcases p with ⟨eid2, cid2⟩
        obtain ⟨e2, he2, hen2, heid2⟩ :=
          mem_matchingPairs s en cn eid2 cid2 (by rw [hp]; exact List.mem_cons_self _ _)
        refine ⟨⟨s.nextVoteId, u, eid2, cid2, t⟩, by simp [voteRows], ?_⟩
        simp only [Bool.and_eq_true, beq_iff_eq, List.any_eq_true]
        exact ⟨by simp, e2, he2, by simp [heid2, hen2]⟩
    simp [voteOp, hv]

/-- C1 amended witness: in the one-election one-candidate state, the first
valid vote returns true and the retry returns false. -/
theorem vote_single_vote_guard_witness :
    hasVoted sampleDB "u" "E" = false ∧
    matchingPairs sampleDB "E" "A" ≠ [] ∧
    (voteOp sampleDB "u" "E" "A" "t0").1 = true ∧
    (voteOp (voteOp sampleDB "u" "E" "A" "t0").2 "u" "E" "B" "t1").1 = false := by
  have h := vote_single_vote_guard sampleDB "u" "E" "A" "t0" (by decide) (by decide)
  exact ⟨by decide, by decide, h.1, by rw [h.2.2.2 "B" "t1"]⟩

instance : IsTotal ResultRow rowLe :=
  ⟨by
    intro a b
    rcases Nat.lt_trichotomy a.vote_count b.vote_count with h | h | h
    · exact Or.inr (Or.inl h)
    · rcases le_total a.candidate_name b.candidate_name with hc | hc
      · exact Or.inl (Or.inr ⟨h, hc⟩)
      · exact Or.inr (Or.inr ⟨h.symm, hc⟩)
    · exact Or.inl (Or.inl h)⟩

instance : IsTrans ResultRow rowLe :=
  ⟨by
    intro a b c hab hbc
    rcases hab with h1 | ⟨h1, h1n⟩ <;> rcases hbc with h2 | ⟨h2, h2n⟩
    · exact Or.inl (h2.trans h1)
    · exact Or.inl (h2 ▸ h1)
    · exact Or.inl (h1 ▸ h2)
    · exact Or.inr ⟨h1.trans h2, h1n.trans h2n⟩⟩

/-- C2 counterexample: `create_election` accepts two candidates that share a
name, and `view_results` then returns a single merged row for the two
candidates, so the result does not have exactly one row per candidate. -/
theorem view_results_duplicate_name_counterexample :
    (electionJoinCandidates dupDB "E").length = 2 ∧
    (viewResultsRows dupDB "E").length = 1 := by
  decide

/-- C2 amended: `view_results` returns exactly one row per distinct candidate
name among the candidates of the named election (zero-vote names included),
each row carrying the election name and the summed vote count of the
candidates bearing that name, and the rows are ordered by vote_count
descending with candidate_name ascending as the tie-break. -/
theorem view_results_rows_spec (s : DB) (en : String) :
    (viewResultsRows s en).Perm
      ((((electionJoinCandidates s en).map fun c => c.name).dedup).map
        fun nm => ⟨en, nm, groupCount s (electionJoinCandidates s en) nm⟩) ∧
    (viewResultsRows s en).Pairwise rowLe := by
  constructor
  · exact List.perm_insertionSort rowLe _
  · exact List.sorted_insertionSort rowLe _

/-- C6 counterexample: for an unknown election name the dispatcher returns
None (the empty row list is replaced by None), not an empty sequence of
rows. -/
theorem view_results_unknown_counterexample :
    viewResultsOp emptyDB "Y" = none ∧
    viewResultsOp emptyDB "Y" ≠ some [] ∧
    listElectionCandidatesOp emptyDB "Y" = none ∧
    listElectionCandidatesOp emptyDB "Y" ≠ some [] := by
  decide

/-- C6 amended: with no election of the given name, the `view_results` and
`list_election_candidates` SELECTs yield no rows and the operations return
None; likewise `list_election_candidates` yields no rows and returns None
whenever every election with the given name has no candidates. -/
theorem no_rows_when_unknown (s : DB) (en : String) :
    ((∀ e ∈ s.elections, e.name ≠ en) →
      viewResultsRows s en = [] ∧ viewResultsOp s en = none ∧
      listElectionCandidatesRows s en = [] ∧ listElectionCandidatesOp s en = none) ∧
    ((∀ e ∈ s.elections, e.name = en → ∀ c ∈ s.candidates, c.election_id ≠ e.id) →
      listElectionCandidatesRows s en = [] ∧ listElectionCandidatesOp s en = none) := by
  constructor
  · intro h
    have hf : s.elections.filter (fun e => e.name == en) = [] := by
      rw [List.filter_eq_nil_iff]
      intro e he
      simp [h e he]
    have h1 : viewResultsRows s en = [] := by
      simp [viewResultsRows, electionJoinCandidates, hf, List.insertionSort]
    have h2 : listElectionCandidatesRows s en = [] := by
      simp only [listElectionCandidatesRows, List.flatMap_eq_nil_iff]
      intro c _
      have : s.elections.filter (fun e => c.election_id == e.id && e.name == en) = [] := by
        rw [List.filter_eq_nil_iff]
        intro e he
        simp [h e he]
      simp [this]
    exact ⟨h1, by simp [viewResultsOp, h1, emptyToNone], h2,
      by simp [listElectionCandidatesOp, h2, emptyToNone]⟩
  · intro h
    have h2 : listElectionCandidatesRows s en = [] := by
      simp only [listElectionCandidatesRows, List.flatMap_eq_nil_iff]
      intro c hc
      have : s.elections.filter (fun e => c.election_id == e.id && e.name == en) = [] := by
        rw [List.filter_eq_nil_iff]
        intro e he
        by_cases hn : e.name = en
        · simp [h e he hn c hc]
        · simp [hn]
      simp [this]
    exact ⟨h2, by simp [listElectionCandidatesOp, h2, emptyToNone]⟩

/-- C6 amended witness: unknown election name and candidate-free election both
yield None. -/
theorem no_rows_when_unknown_witness :
    viewResultsOp emptyDB "X" = none ∧ listElectionCandidatesOp noCandDB "E" = none :=
  ⟨((no_rows_when_unknown emptyDB "X").1 (by decide)).2.1,
   ((no_rows_when_unknown noCandDB "E").2 (by decide)).2⟩

/-- When no election carries the name, every stored election has a different
name. -/
theorem not_named_of_not_exists (s : DB) (en : String)
    (h : electionExists s en = false) :
    ∀ e ∈ s.elections, e.name ≠ en := by
  intro e he
  simp only [electionExists, List.any_eq_false] at h
  simpa using h e he

/-- When every supplied birth date is canonical, the batch formatting of
`insert_candidates` succeeds and appends midnight to each date. -/
theorem formatBirths_of_forall (cands : List CandIn)
    (h : ∀ c ∈ cands, formatDate c.birth_date = some (c.birth_date ++ " 00:00:00")) :
    formatBirths cands = .ok (cands.map fun c => (c, c.birth_date ++ " 00:00:00")) := by
  induction cands with
  | nil => rfl
  | cons c rest ih =>
    simp only [formatBirths, h c (List.mem_cons_self _ _)]
    rw [ih (fun c2 hc2 => h c2 (List.mem_cons_of_mem _ hc2))]
    simp

/-- The candidate rows of a freshly inserted batch join exactly to the single
new election row, and project back to the submitted candidates. -/
theorem flatMap_mkCandRows (elecs : List ElectionR) (newE : ElectionR) (en : String)
    (eid : Nat)
    (helec : elecs.filter (fun e => eid == e.id && e.name == en) = [newE])
    (wd : List (CandIn × String)) :
    ∀ i : Nat,
      ((mkCandRows eid i wd).flatMap fun c =>
          (elecs.filter fun e => c.election_id == e.id && e.name == en).map
            fun _ => (⟨c.id, c.name, c.birth_date, c.occupation, c.program⟩ : CandRow)).map
        (fun r => (r.name, r.birth_date, r.occupation, r.program))
      = wd.map fun p => (p.1.name, p.2, p.1.occupation, p.1.program) := by
  induction wd with
  | nil => intro i; rfl
  | cons p rest ih =>
    intro i
    obtain ⟨c, f⟩ := p
    simp only [mkCandRows, List.flatMap_cons, List.map_append, helec]
    rw [ih (i + 1)]
    simp

/-- C7 counterexample: the stored and listed candidate birth_date is the
submitted date with an appended midnight time, so the candidate is not
retrieved with birth_date unchanged. -/
theorem round_trip_birth_date_counterexample :
    listElectionCandidatesRows rtDB "E" = [⟨1, "A", "1990-01-02 00:00:00", "o", "p"⟩] ∧
    (¬ ∃ r ∈ listElectionCandidatesRows rtDB "E", r.birth_date = "1990-01-02") := by
  decide

/-- C7 amended: after `create_election` with a fresh name, well-formed
election dates and canonical candidate birth dates, on a state whose
candidates do not already reference the generated election id,
`list_election_candidates` returns exactly the supplied candidates with name,
occupation and program unchanged and birth_date equal to the submitted date
with an appended midnight time component. -/
theorem create_election_candidates_round_trip (s : DB) (en d sd ed cu : String)
    (cands : List CandIn) (sdF edF : String)
    (h0 : electionExists s en = false)
    (h1 : formatDate sd = some sdF) (h2 : formatDate ed = some edF)
    (h3 : ∀ c ∈ cands, formatDate c.birth_date = some (c.birth_date ++ " 00:00:00"))
    (h4 : ∀ c ∈ s.candidates, c.election_id ≠ s.nextElectionId) :
    (listElectionCandidatesRows (createElectionOp s en d sd ed cu cands).2 en).map
        (fun r => (r.name, r.birth_date, r.occupation, r.program))
      = cands.map fun c => (c.name, c.birth_date ++ " 00:00:00", c.occupation, c.program) := by
  have hok := createElectionOp_ok s en d sd ed cu cands sdF edF
    (cands.map fun c => (c, c.birth_date ++ " 00:00:00")) h0 h1 h2
    (formatBirths_of_forall cands h3)
  rw [hok]
  simp only [listElectionCandidatesRows, List.flatMap_append, List.map_append]
  have hold : s.candidates.flatMap (fun c =>
      ((s.elections ++ [(⟨s.nextElectionId, en, d, sdF, edF, cu⟩ : ElectionR)]).filter
          (fun e => c.election_id == e.id && e.name == en)).map
        fun _ => (⟨c.id, c.name, c.birth_date, c.occupation, c.program⟩ : CandRow)) = [] := by
    rw [List.flatMap_eq_nil_iff]
    intro c hc
    have hfil : (s.elections ++ [(⟨s.nextElectionId, en, d, sdF, edF, cu⟩ : ElectionR)]).filter
        (fun e => c.election_id == e.id && e.name == en) = [] := by
      rw [List.filter_eq_nil_iff]
      intro e he
      rcases List.mem_append.mp he with he | he
      · simp [not_named_of_not_exists s en h0 e he]
      · have : e = (⟨s.nextElectionId, en, d, sdF, edF, cu⟩ : ElectionR) := by simpa using he
        subst this
        simp [h4 c hc]
    simp [hfil]
  have helec : (s.elections ++ [(⟨s.nextElectionId, en, d, sdF, edF, cu⟩ : ElectionR)]).filter
      (fun e => s.nextElectionId == e.id && e.name == en)
      = [(⟨s.nextElectionId, en, d, sdF, edF, cu⟩ : ElectionR)] := by
    rw [List.filter_append]
    have h5 : s.elections.filter (fun e => s.nextElectionId == e.id && e.name == en) = [] := by
      rw [List.filter_eq_nil_iff]
      intro e he
      simp [not_named_of_not_exists s en h0 e he]
    rw [h5]
    simp
  rw [hold]
  simp only [List.nil_append, List.map_nil]
  rw [flatMap_mkCandRows _ _ en s.nextElectionId helec
    (cands.map fun c => (c, c.birth_date ++ " 00:00:00")) s.nextCandidateId]
  simp [Function.comp]

/-- C7 amended witness: the single candidate of the created election comes
back with name, occupation and program unchanged and its birth date stored at
midnight. -/
theorem create_election_candidates_round_trip_witness :
    (listElectionCandidatesRows rtDB "E").map
        (fun r => (r.name, r.birth_date, r.occupation, r.program))
      = [("A", "1990-01-02 00:00:00", "o", "p")] := by
  have h := create_election_candidates_round_trip emptyDB "E" "d" "2024-01-05" "2024-02-05"
    "bob" [⟨"A", "1990-01-02", "o", "p"⟩] "2024-01-05 00:00:00" "2024-02-05 00:00:00"
    (by decide) (by decide) (by decide) (by decide) (by decide)
  exact h

end ElectionStore
